import Mathlib

/-!
# Verification of the Sagemcom Prometheus exporter core

Shallow embedding of `src/script.py`.  Pure data flow is translated
directly; the effectful boundary (the sagemcom client calls, the HTTP
public-IP lookup, the ping probe and the speedtest benchmark) is modelled
by explicit outcome values: each upstream call either returns a value or
raises (`Res.err`).  Prometheus gauges with labels are modelled as
association lists from the label tuple to the latest value, where
`labels(...).set(v)` is last-write-wins (`gaugeSet`) and `clear()` starts
the family from `[]`.  Scalar gauges and `Info` records are `Option`
fields of the `Registry` (absent until first set).  Wall-clock time in the
scheduling loop is modelled with natural-number seconds.
-/

/-- Result of one upstream call: a value, or a raised exception. -/
inductive Res (α : Type) : Type
  | ok (val : α)
  | err
deriving DecidableEq

/-- The fields of `client.get_device_info()` read by the script
(lines 224-242). -/
structure DeviceInfo where
  mac_address : String
  build_date : String
  up_time : ℚ
  reboot_count : ℚ
  model_name : String
  serial_number : String
  software_version : String
deriving DecidableEq

/-- One entry of `client.get_hosts()` with the attributes read in the
host loop (lines 256-283).  Attributes the script guards with
`or "unknown"` are `Option`-typed.  `alias_name` stands for the source
attribute `d.alias` (the word is reserved in Lean). -/
structure Host where
  id : String
  name : String
  host_name : String
  interface_type : String
  active : Bool
  lease_start : ℚ
  lease_duration : ℚ
  lease_time_remaining : ℚ
  phys_address : Option String
  alias_name : Option String
  ip_address : Option String
  layer1_interface : Option String
  layer3_interface : Option String
  blacklisted : Bool
  blacklisted_schedule : Option String
deriving DecidableEq

/-- One dict from the `Device/NAT/PortMappings` xpath; the script reads
each key with a default (`mapping.get(..., 'unknown')`, lines 156-159). -/
structure PortMapping where
  external_port : Option String
  internal_port : Option String
  protocol : Option String
  enabled : Option Bool
deriving DecidableEq

/-- One dict from the `Device/WiFi/Radios` xpath (lines 189-196). -/
structure Radio where
  channel : Option ℚ
  signal_strength : Option ℚ
deriving DecidableEq

/-- Label schema of `sagemcom_device_status` (line 45-47). -/
structure StatusLabels where
  mac_address : String
  name : String
  hostname : String
  interface : String
deriving DecidableEq

/-- Label schema of `sagemcom_device_lease` (line 48-50). -/
structure LeaseLabels where
  mac_address : String
  metric : String
deriving DecidableEq

/-- Label schema of `sagemcom_connected_device_info` (lines 35-43). -/
structure InfoLabels where
  device_id : String
  device_name : String
  ip : String
  hostname : String
  status : String
  interface_type : String
  lease_time_remaining : String
  layer1_interface : String
  layer3_interface : String
  blacklist_status : String
  blacklisted_schedule : String
deriving DecidableEq

/-- Label schema of `sagemcom_port_mappings` (lines 67-71). -/
structure PortLabels where
  external_port : String
  internal_port : String
  protocol : String
  status : String
deriving DecidableEq

/-- The dict passed to `modem_info.info` (lines 236-242). -/
structure ModemInfo where
  device_id : String
  build_date : String
  model_name : String
  serial_number : String
  software_version : String
deriving DecidableEq

/-- Gauge value for the latency probe: either the NaN sentinel
(`float('nan')`) or a finite number of milliseconds. -/
inductive GVal : Type
  | nan
  | q (x : ℚ)
deriving DecidableEq

/-- The module-level Prometheus metrics of the script.  A labelled gauge
is an association list from its label tuple to the latest value; scalar
gauges and `Info` records are absent (`none`) until first set. -/
structure Registry where
  device_uptime_gauge : Option ℚ
  device_reboot_count_gauge : Option ℚ
  connected_devices_gauge : Option ℚ
  modem_info : Option ModemInfo
  device_status_gauge : List (StatusLabels × ℚ)
  device_lease_gauge : List (LeaseLabels × ℚ)
  device_info_gauge : List (InfoLabels × ℚ)
  port_mapping_gauge : List (PortLabels × ℚ)
  wifi_radio_signal_gauge : List (String × ℚ)
  wifi_radio_channel_gauge : List (String × ℚ)
  public_ip_info : Option String
  speedtest_download_gauge : Option ℚ
  speedtest_upload_gauge : Option ℚ
  speedtest_ping_gauge : Option ℚ
  google_ping_gauge : Option GVal
deriving DecidableEq

/-- State of the registry at process start: no series, no records. -/
def initRegistry : Registry :=
  ⟨none, none, none, none, [], [], [], [], [], [], none, none, none, none, none⟩

/-- `gauge.labels(k).set(v)`: last-write-wins install of one series. -/
def gaugeSet {L : Type} [DecidableEq L] (m : List (L × ℚ)) (k : L) (v : ℚ) :
    List (L × ℚ) :=
  m.filter (fun p => p.1 ≠ k) ++ [(k, v)]

/-- Python truthiness of `x or dflt` for an optional string. -/
def orDefault (o : Option String) (dflt : String) : String :=
  match o with
  | some s => if s = "" then dflt else s
  | none => dflt

/-- Python truthiness of `s or "unknown"` for a plain string. -/
def orUnknown (s : String) : String := if s = "" then "unknown" else s

/-- Labels of the `device_status_gauge` series for one host (lines 258-262). -/
def statusLabels (d : Host) : StatusLabels :=
  ⟨d.id, d.name, d.host_name, d.interface_type⟩

/-- `1 if d.active else 0` (line 263). -/
def statusVal (d : Host) : ℚ := if d.active then 1 else 0

/-- Labels of the `device_info_gauge` series for one host (lines 271-282). -/
def infoLabels (d : Host) : InfoLabels :=
  ⟨orDefault d.phys_address "unknown",
   orDefault d.alias_name "unknown",
   orDefault d.ip_address "unknown",
   orUnknown d.host_name,
   if d.active then "Active" else "Inactive",
   orUnknown d.interface_type,
   toString d.lease_time_remaining,
   orDefault d.layer1_interface "unknown",
   orDefault d.layer3_interface "unknown",
   if d.blacklisted then "True" else "False",
   orDefault d.blacklisted_schedule "[]"⟩

/-- Contents of `device_status_gauge` after `clear()` plus the host loop. -/
def hostStatusFamily (devs : List Host) : List (StatusLabels × ℚ) :=
  List.foldl (fun m d => gaugeSet m (statusLabels d) (statusVal d)) [] devs

/-- Contents of `device_lease_gauge` after `clear()` plus the host loop
(three series per host, lines 266-268). -/
def hostLeaseFamily (devs : List Host) : List (LeaseLabels × ℚ) :=
  List.foldl (fun m d =>
    gaugeSet (gaugeSet (gaugeSet m ⟨d.id, "lease_start"⟩ d.lease_start)
      ⟨d.id, "lease_duration"⟩ d.lease_duration)
      ⟨d.id, "lease_remaining"⟩ d.lease_time_remaining) [] devs

/-- Contents of `device_info_gauge` after `clear()` plus the host loop. -/
def hostInfoFamily (devs : List Host) : List (InfoLabels × ℚ) :=
  List.foldl (fun m d => gaugeSet m (infoLabels d) (statusVal d)) [] devs

/-- Labels of one `port_mapping_gauge` series (lines 156-166). -/
def portLabels (m : PortMapping) : PortLabels :=
  ⟨m.external_port.getD "unknown",
   m.internal_port.getD "unknown",
   m.protocol.getD "unknown",
   if m.enabled.getD false then "active" else "inactive"⟩

/-- Outcomes of all upstream calls made during one iteration of
`collect_sagemcom_metrics`.  `public_ip` is the value returned by
`fetch_public_ip`, which catches its own errors and returns `None`
(modelled `none`) on failure. -/
structure Upstream where
  login : Res Unit
  device_info : Res DeviceInfo
  hosts : Res (List Host)
  port_mappings : Res (List PortMapping)
  wifi_radios : Res (List Radio)
  public_ip : Option String
deriving DecidableEq

/-- `collect_port_mappings` (lines 142-168): fetch the xpath; on any
exception keep the gauge untouched; on success `clear()` then install one
series per mapping (an empty or missing list installs nothing). -/
def collect_port_mappings (u : Upstream) (r : Registry) : Registry :=
  match u.port_mappings with
  | Res.err => r
  | Res.ok pms =>
    { r with port_mapping_gauge :=
        List.foldl (fun m pm => gaugeSet m (portLabels pm) 1) [] pms }

/-- `collect_wifi_stats` (lines 173-199): fetch the xpath; on exception
keep the gauges untouched; on an empty/missing result return early
BEFORE the `clear()` calls; otherwise clear both gauges and install one
series per radio, keyed by the enumeration index. -/
def collect_wifi_stats (u : Upstream) (r : Registry) : Registry :=
  match u.wifi_radios with
  | Res.err => r
  | Res.ok radios =>
    if radios.isEmpty then r
    else
      { r with
        wifi_radio_signal_gauge :=
          List.foldl (fun m p => gaugeSet m (toString p.1) (p.2.signal_strength.getD 0))
            [] radios.enum,
        wifi_radio_channel_gauge :=
          List.foldl (fun m p => gaugeSet m (toString p.1) (p.2.channel.getD 0))
            [] radios.enum }

/-- Lines 299-301: `if public_ip: public_ip_info.info(...)` — only a
truthy (non-`None`, non-empty) result replaces the info record. -/
def apply_public_ip (o : Option String) (r : Registry) : Registry :=
  match o with
  | some ip => if ip = "" then r else { r with public_ip_info := some ip }
  | none => r

/-- The dict written to `modem_info` (lines 236-242). -/
def modemInfoOf (di : DeviceInfo) : ModemInfo :=
  ⟨di.mac_address, di.build_date, di.model_name, di.serial_number, di.software_version⟩

/-- `collect_sagemcom_metrics` (lines 204-310).  The whole body runs
under one `try`: an exception in `login`, `get_device_info` or
`get_hosts` aborts the rest of the poll (returning `false`); the device
uptime/reboot/modem-info records are written BEFORE `get_hosts`, so they
survive a later failure of the same poll.  `collect_port_mappings`,
`collect_wifi_stats` and `fetch_public_ip` catch their own errors and so
never abort the poll. -/
def collect_sagemcom_metrics (u : Upstream) (r : Registry) : Registry × Bool :=
  match u.login with
  | Res.err => (r, false)
  | Res.ok _ =>
    match u.device_info with
    | Res.err => (r, false)
    | Res.ok di =>
      let r1 : Registry :=
        { r with device_uptime_gauge := some di.up_time,
                 device_reboot_count_gauge := some di.reboot_count,
                 modem_info := some (modemInfoOf di) }
      match u.hosts with
      | Res.err => (r1, false)
      | Res.ok devs =>
        let r2 : Registry :=
          { r1 with
            connected_devices_gauge := some ((devs.filter fun d => d.active).length : ℚ),
            device_status_gauge := hostStatusFamily devs,
            device_lease_gauge := hostLeaseFamily devs,
            device_info_gauge := hostInfoFamily devs }
        let r3 := collect_port_mappings u r2
        let r4 := collect_wifi_stats u r3
        (apply_public_ip u.public_ip r4, true)

/-- Outcome of the `ping('google.com', timeout=1)` call: a round-trip
time in seconds, `None` on timeout, or a raised exception. -/
inductive PingOutcome : Type
  | success (t : ℚ)
  | timeout
  | error
deriving DecidableEq

/-- `ping_google` (lines 129-140): a finite result is exported as
milliseconds (`t * 1000`); a timeout or an exception sets the NaN
sentinel. -/
def ping_google (o : PingOutcome) (r : Registry) : Registry :=
  match o with
  | PingOutcome.success t => { r with google_ping_gauge := some (GVal.q (t * 1000)) }
  | PingOutcome.timeout => { r with google_ping_gauge := some GVal.nan }
  | PingOutcome.error => { r with google_ping_gauge := some GVal.nan }

/-- Outcome of one speedtest run: the raw download/upload rates (bits per
second) and the latency, or a raised exception anywhere before the gauge
writes (lines 111-115), in which case nothing is written. -/
inductive SpeedOutcome : Type
  | success (downloadBits uploadBits pingMs : ℚ)
  | failure
deriving DecidableEq

/-- `run_speedtest` (lines 108-127). -/
def run_speedtest (o : SpeedOutcome) (r : Registry) : Registry :=
  match o with
  | SpeedOutcome.success d up p =>
    { r with speedtest_download_gauge := some (d / 1000000),
             speedtest_upload_gauge := some (up / 1000000),
             speedtest_ping_gauge := some p }
  | SpeedOutcome.failure => r

/-- Default of the `COLLECTION_INTERVAL` environment variable (line 23). -/
def COLLECTION_INTERVAL : ℕ := 300

/-- `speedtest_interval_seconds` (line 90). -/
def speedtest_interval_seconds : ℕ := 3600

/-- Everything one iteration of the loop consumes: the upstream outcomes
and the wall-clock duration of each collector's work. -/
structure IterInput where
  upstream : Upstream
  pingOut : PingOutcome
  speedOut : SpeedOutcome
  sagemcomDur : ℕ
  pingDur : ℕ
  speedDur : ℕ
deriving DecidableEq

/-- Mutable loop state: current wall-clock time and
`last_speedtest_time` (initially 0, line 91). -/
structure LoopState where
  now : ℕ
  last_speedtest_time : ℕ
deriving DecidableEq

/-- Observable schedule of one loop iteration: when each collector was
dispatched, whether the speedtest ran, and when the next iteration
starts. -/
structure IterTrace where
  sagemcomStart : ℕ
  sagemcomRan : Bool
  pingStart : ℕ
  pingRan : Bool
  speedtestCheckTime : ℕ
  speedtestRan : Bool
  speedtestEnd : ℕ
  nextIterStart : ℕ
deriving DecidableEq

/-- One iteration of `update_metrics_loop` (lines 315-331): sequentially
await the device poll, the latency probe, conditionally the speedtest
(`current_time - last_speedtest_time >= speedtest_interval_seconds`,
with `current_time` read BEFORE the run and stored as the new
`last_speedtest_time`), then `asyncio.sleep(COLLECTION_INTERVAL)`. -/
def update_metrics_step (st : LoopState) (r : Registry) (it : IterInput) :
    LoopState × Registry × IterTrace :=
  let sagStart := st.now
  let r1 := (collect_sagemcom_metrics it.upstream r).1
  let pingStart := sagStart + it.sagemcomDur
  let r2 := ping_google it.pingOut r1
  let current := pingStart + it.pingDur
  let ran : Bool := decide (speedtest_interval_seconds ≤ current - st.last_speedtest_time)
  let r3 := if ran then run_speedtest it.speedOut r2 else r2
  let sEnd := if ran then current + it.speedDur else current
  let lastNew := if ran then current else st.last_speedtest_time
  let next := sEnd + COLLECTION_INTERVAL
  (⟨next, lastNew⟩, r3, ⟨sagStart, true, pingStart, true, current, ran, sEnd, next⟩)

/-- A finite prefix of the infinite loop, yielding the per-iteration
traces. -/
def update_metrics_run : LoopState → Registry → List IterInput →
    LoopState × Registry × List IterTrace
  | st, r, [] => (st, r, [])
  | st, r, it :: rest =>
    let out := update_metrics_step st r it
    let outRest := update_metrics_run out.1 out.2.1 rest
    (outRest.1, outRest.2.1, out.2.2 :: outRest.2.2)

/-- A sequence of device polls (used to talk about the public-IP record
across consecutive iterations). -/
def pollsPublicIP : List Upstream → Registry → Registry
  | [], r => r
  | u :: us, r => pollsPublicIP us (collect_sagemcom_metrics u r).1

/-! ## Concrete sample data for closed evaluations -/

/-- A device-info record with uptime 100. -/
def diA : DeviceInfo := ⟨"aa:bb", "2020", 100, 1, "mdl", "sn", "sw"⟩

/-- The same device later in time: uptime 200. -/
def diB : DeviceInfo := ⟨"aa:bb", "2020", 200, 1, "mdl", "sn", "sw"⟩

/-- An active host with identifier "A". -/
def hostA : Host :=
  ⟨"A", "x", "hx", "eth", true, 1, 2, 3, none, none, none, none, none, false, none⟩

/-- A second host entry carrying the SAME identifier "A" but a different
name label. -/
def hostA2 : Host :=
  ⟨"A", "y", "hx", "eth", false, 1, 2, 3, none, none, none, none, none, false, none⟩

/-- One Wi-Fi radio. -/
def radio0 : Radio := ⟨some 6, some 40⟩

/-- A fully successful poll with an empty host table and no radios
reported as present. -/
def upAllOkEmpty : Upstream :=
  ⟨Res.ok (), Res.ok diA, Res.ok [], Res.ok [], Res.ok [], none⟩

/-- A poll that logs in and reads device info (uptime 200) but then
fails inside `get_hosts`. -/
def upHostsFail : Upstream :=
  ⟨Res.ok (), Res.ok diB, Res.err, Res.err, Res.err, none⟩

/-- A successful poll whose Wi-Fi xpath reports one radio. -/
def upWifiOne : Upstream :=
  ⟨Res.ok (), Res.ok diA, Res.ok [], Res.ok [], Res.ok [radio0], none⟩

/-- A successful poll whose Wi-Fi xpath reports an empty radio list. -/
def upWifiEmpty : Upstream :=
  ⟨Res.ok (), Res.ok diA, Res.ok [], Res.ok [], Res.ok [], none⟩

/-- A successful poll returning the duplicate-identifier host table. -/
def upDupHosts : Upstream :=
  ⟨Res.ok (), Res.ok diA, Res.ok [hostA, hostA2], Res.err, Res.err, none⟩

/-- A successful poll returning exactly one host. -/
def upOneHost : Upstream :=
  ⟨Res.ok (), Res.ok diA, Res.ok [hostA], Res.ok [], Res.ok [], none⟩

/-- A successful poll whose public-IP lookup returned "1.2.3.4". -/
def upIpOk : Upstream :=
  ⟨Res.ok (), Res.ok diA, Res.ok [], Res.ok [], Res.ok [], some "1.2.3.4"⟩

/-- An upstream where every device call raises. -/
def upErr : Upstream := ⟨Res.err, Res.err, Res.err, Res.err, Res.err, none⟩

/-- Registry after one fully successful poll with uptime 100. -/
def regAfterPoll1 : Registry := (collect_sagemcom_metrics upAllOkEmpty initRegistry).1

/-- Registry holding one Wi-Fi signal/channel series. -/
def regWithWifi : Registry := (collect_sagemcom_metrics upWifiOne initRegistry).1

/-- An iteration in which the benchmark takes 600 s. -/
def itSpeed : IterInput := ⟨upErr, PingOutcome.timeout, SpeedOutcome.failure, 1, 1, 600⟩

/-- An ordinary fast iteration. -/
def itFast : IterInput := ⟨upErr, PingOutcome.timeout, SpeedOutcome.failure, 1, 1, 0⟩

/-- Default trace used with `List.getD`. -/
def trDefault : IterTrace := ⟨0, false, 0, false, 0, false, 0, 0⟩

/-- Two loop iterations starting at wall-clock 4000, the first of which
runs a 600-second benchmark. -/
def c2run : LoopState × Registry × List IterTrace :=
  update_metrics_run ⟨4000, 0⟩ initRegistry [itSpeed, itFast]

/-- Eleven loop iterations starting at wall-clock 4000; the benchmark
runs in the first (duration 600 s) and then again as soon as 3600 s have
passed since its START. -/
def c6run : LoopState × Registry × List IterTrace :=
  update_metrics_run ⟨4000, 0⟩ initRegistry (itSpeed :: List.replicate 10 itFast)

/-! ## Frame lemmas: each collector touches only its own families -/

theorem collect_port_mappings_eq (u : Upstream) (r : Registry) :
    collect_port_mappings u r =
      { r with port_mapping_gauge := (collect_port_mappings u r).port_mapping_gauge } := by
  unfold collect_port_mappings
  cases u.port_mappings <;> rfl

theorem collect_wifi_stats_eq (u : Upstream) (r : Registry) :
    collect_wifi_stats u r =
      { r with
        wifi_radio_signal_gauge := (collect_wifi_stats u r).wifi_radio_signal_gauge,
        wifi_radio_channel_gauge := (collect_wifi_stats u r).wifi_radio_channel_gauge } := by
  unfold collect_wifi_stats
  cases u.wifi_radios with
  | err => rfl
  | ok radios =>
    by_cases h : radios.isEmpty <;> simp [h]

theorem apply_public_ip_eq (o : Option String) (r : Registry) :
    apply_public_ip o r =
      { r with public_ip_info := (apply_public_ip o r).public_ip_info } := by
  unfold apply_public_ip
  cases o with
  | none => rfl
  | some ip => by_cases h : ip = "" <;> simp [h]

theorem ping_google_eq (o : PingOutcome) (r : Registry) :
    ping_google o r =
      { r with google_ping_gauge := (ping_google o r).google_ping_gauge } := by
  cases o <;> rfl

theorem run_speedtest_eq (o : SpeedOutcome) (r : Registry) :
    run_speedtest o r =
      { r with
        speedtest_download_gauge := (run_speedtest o r).speedtest_download_gauge,
        speedtest_upload_gauge := (run_speedtest o r).speedtest_upload_gauge,
        speedtest_ping_gauge := (run_speedtest o r).speedtest_ping_gauge } := by
  cases o <;> rfl

theorem ping_google_gauge_congr (o : PingOutcome) (r s : Registry) :
    (ping_google o r).google_ping_gauge = (ping_google o s).google_ping_gauge := by
  cases o <;> rfl

/-! ## Shape of one device poll in each of its outcome cases -/

theorem collect_login_err (u : Upstream) (r : Registry) (h : u.login = Res.err) :
    collect_sagemcom_metrics u r = (r, false) := by
  unfold collect_sagemcom_metrics
  rw [h]

theorem collect_device_info_err (u : Upstream) (r : Registry)
    (h1 : u.login = Res.ok ()) (h2 : u.device_info = Res.err) :
    collect_sagemcom_metrics u r = (r, false) := by
  unfold collect_sagemcom_metrics
  rw [h1, h2]

theorem collect_hosts_err (u : Upstream) (r : Registry) (di : DeviceInfo)
    (h1 : u.login = Res.ok ()) (h2 : u.device_info = Res.ok di)
    (h3 : u.hosts = Res.err) :
    collect_sagemcom_metrics u r =
      ({ r with device_uptime_gauge := some di.up_time,
                device_reboot_count_gauge := some di.reboot_count,
                modem_info := some (modemInfoOf di) }, false) := by
  unfold collect_sagemcom_metrics
  rw [h1, h2, h3]

theorem collect_ok (u : Upstream) (r : Registry) (di : DeviceInfo) (devs : List Host)
    (h1 : u.login = Res.ok ()) (h2 : u.device_info = Res.ok di)
    (h3 : u.hosts = Res.ok devs) :
    collect_sagemcom_metrics u r =
      (apply_public_ip u.public_ip (collect_wifi_stats u (collect_port_mappings u
        { r with device_uptime_gauge := some di.up_time,
                 device_reboot_count_gauge := some di.reboot_count,
                 modem_info := some (modemInfoOf di),
                 connected_devices_gauge := some ((devs.filter fun d => d.active).length : ℚ),
                 device_status_gauge := hostStatusFamily devs,
                 device_lease_gauge := hostLeaseFamily devs,
                 device_info_gauge := hostInfoFamily devs })), true) := by
  unfold collect_sagemcom_metrics
  rw [h1, h2, h3]

/-! ## General lemmas about `gaugeSet` folds -/

theorem gaugeSet_of_not_mem {L : Type} [DecidableEq L]
    (m : List (L × ℚ)) (k : L) (v : ℚ) (h : k ∉ m.map Prod.fst) :
    gaugeSet m k v = m ++ [(k, v)] := by
  unfold gaugeSet
  congr 1
  apply List.filter_eq_self.mpr
  intro p hp
  simp only [ne_eq, decide_eq_true_eq]
  intro hEq
  exact h (hEq ▸ List.mem_map_of_mem Prod.fst hp)

theorem foldl_gaugeSet_eq {L α : Type} [DecidableEq L]
    (key : α → L) (val : α → ℚ) (xs : List α) (init : List (L × ℚ))
    (hnd : (xs.map key).Nodup) (hdisj : ∀ x ∈ xs, key x ∉ init.map Prod.fst) :
    List.foldl (fun m x => gaugeSet m (key x) (val x)) init xs
      = init ++ xs.map (fun x => (key x, val x)) := by
  induction xs generalizing init with
  | nil => simp
  | cons a as ih =>
    have hka : key a ∉ init.map Prod.fst := hdisj a (by simp)
    have hstep : gaugeSet init (key a) (val a) = init ++ [(key a, val a)] :=
      gaugeSet_of_not_mem init (key a) (val a) hka
    have hnd' : (as.map key).Nodup := (List.nodup_cons.mp (by simpa using hnd)).2
    have hhead : key a ∉ as.map key := (List.nodup_cons.mp (by simpa using hnd)).1
    have hdisj' : ∀ x ∈ as, key x ∉ (init ++ [(key a, val a)]).map Prod.fst := by
      intro x hx
      simp only [List.map_append, List.mem_append, List.map_cons, List.map_nil,
        List.mem_cons, List.not_mem_nil, or_false]
      rintro (hmem | hEq)
      case inl => exact hdisj x (List.mem_cons_of_mem a hx) hmem
      case inr => exact hhead (hEq ▸ List.mem_map_of_mem key hx)
    calc List.foldl (fun m x => gaugeSet m (key x) (val x)) init (a :: as)
        = List.foldl (fun m x => gaugeSet m (key x) (val x))
            (init ++ [(key a, val a)]) as := by rw [List.foldl_cons, hstep]
      _ = (init ++ [(key a, val a)]) ++ as.map (fun x => (key x, val x)) :=
            ih (init ++ [(key a, val a)]) hnd' hdisj'
      _ = init ++ (a :: as).map (fun x => (key x, val x)) := by simp

theorem mem_keys_gaugeSet {L : Type} [DecidableEq L]
    (m : List (L × ℚ)) (k k2 : L) (v : ℚ) (h : k ∈ m.map Prod.fst) :
    k ∈ (gaugeSet m k2 v).map Prod.fst := by
  unfold gaugeSet
  by_cases hk : k = k2
  · subst hk; simp
  · obtain ⟨p, hp, hpk⟩ := List.mem_map.mp h
    have hkeep : p ∈ m.filter (fun p => p.1 ≠ k2) := by
      apply List.mem_filter.mpr
      refine ⟨hp, ?_⟩
      simp only [ne_eq, decide_eq_true_eq]
      rw [hpk]; exact hk
    simp only [List.map_append, List.mem_append]
    exact Or.inl (hpk ▸ List.mem_map_of_mem Prod.fst hkeep)

theorem mem_keys_foldl_gaugeSet {L α : Type} [DecidableEq L]
    (key : α → L) (val : α → ℚ) (xs : List α) (init : List (L × ℚ)) (k : L)
    (h : k ∈ init.map Prod.fst) :
    k ∈ (List.foldl (fun m x => gaugeSet m (key x) (val x)) init xs).map Prod.fst := by
  induction xs generalizing init with
  | nil => simpa using h
  | cons a as ih =>
    rw [List.foldl_cons]
    exact ih (gaugeSet init (key a) (val a)) (mem_keys_gaugeSet init k (key a) (val a) h)

theorem mem_keys_foldl_gaugeSet_self {L α : Type} [DecidableEq L]
    (key : α → L) (val : α → ℚ) (xs : List α) (init : List (L × ℚ)) (x : α)
    (h : x ∈ xs) :
    key x ∈ (List.foldl (fun m y => gaugeSet m (key y) (val y)) init xs).map Prod.fst := by
  induction xs generalizing init with
  | nil => cases h
  | cons a as ih =>
    rw [List.foldl_cons]
    rcases List.mem_cons.mp h with hEq | hmem
    · subst hEq
      apply mem_keys_foldl_gaugeSet
      unfold gaugeSet
      simp
    · exact ih (gaugeSet init (key a) (val a)) hmem

/-! ## Consequences of a failed device poll -/

theorem collect_fail_preserves (u : Upstream) (r : Registry)
    (h : (collect_sagemcom_metrics u r).2 = false) :
    (collect_sagemcom_metrics u r).1.device_status_gauge = r.device_status_gauge ∧
    (collect_sagemcom_metrics u r).1.device_lease_gauge = r.device_lease_gauge ∧
    (collect_sagemcom_metrics u r).1.device_info_gauge = r.device_info_gauge ∧
    (collect_sagemcom_metrics u r).1.port_mapping_gauge = r.port_mapping_gauge ∧
    (collect_sagemcom_metrics u r).1.wifi_radio_signal_gauge = r.wifi_radio_signal_gauge ∧
    (collect_sagemcom_metrics u r).1.wifi_radio_channel_gauge = r.wifi_radio_channel_gauge ∧
    (collect_sagemcom_metrics u r).1.public_ip_info = r.public_ip_info ∧
    (collect_sagemcom_metrics u r).1.connected_devices_gauge = r.connected_devices_gauge ∧
    (collect_sagemcom_metrics u r).1.google_ping_gauge = r.google_ping_gauge := by
  cases hl : u.login with
  | err =>
    rw [collect_login_err u r hl]
    exact ⟨rfl, rfl, rfl, rfl, rfl, rfl, rfl, rfl, rfl⟩
  | ok v =>
    cases v
    cases hd : u.device_info with
    | err =>
      rw [collect_device_info_err u r hl hd]
      exact ⟨rfl, rfl, rfl, rfl, rfl, rfl, rfl, rfl, rfl⟩
    | ok di =>
      cases hh : u.hosts with
      | err =>
        rw [collect_hosts_err u r di hl hd hh]
        exact ⟨rfl, rfl, rfl, rfl, rfl, rfl, rfl, rfl, rfl⟩
      | ok devs =>
        rw [collect_ok u r di devs hl hd hh] at h
        cases h

/-- The number of traces produced equals the number of iterations: the
loop never stops early, whatever the outcomes. -/
theorem update_metrics_run_length (its : List IterInput) :
    ∀ st r, (update_metrics_run st r its).2.2.length = its.length := by
  induction its with
  | nil => intro st r; rfl
  | cons it rest ih =>
    intro st r
    unfold update_metrics_run
    simp [ih]

/-- A device poll with a failed (or never attempted) public-IP lookup
leaves the public-IP record untouched. -/
theorem collect_public_ip_none (u : Upstream) (r : Registry)
    (h : u.public_ip = none) :
    (collect_sagemcom_metrics u r).1.public_ip_info = r.public_ip_info := by
  cases hl : u.login with
  | err => rw [collect_login_err u r hl]
  | ok v =>
    cases v
    cases hd : u.device_info with
    | err => rw [collect_device_info_err u r hl hd]
    | ok di =>
      cases hh : u.hosts with
      | err => rw [collect_hosts_err u r di hl hd hh]
      | ok devs =>
        rw [collect_ok u r di devs hl hd hh]
        rw [h]
        show (collect_wifi_stats u (collect_port_mappings u _)).public_ip_info = _
        rw [collect_wifi_stats_eq, collect_port_mappings_eq]

/-- Folding failed lookups over any number of polls leaves the public-IP
record untouched. -/
theorem pollsPublicIP_none (us : List Upstream) :
    ∀ r : Registry, (∀ v ∈ us, v.public_ip = none) →
      (pollsPublicIP us r).public_ip_info = r.public_ip_info := by
  induction us with
  | nil => intro r _; rfl
  | cons u rest ih =>
    intro r hall
    unfold pollsPublicIP
    rw [ih (collect_sagemcom_metrics u r).1 fun v hv => hall v (List.mem_cons_of_mem u hv)]
    exact collect_public_ip_none u r (hall u (List.mem_cons_self u rest))

/-! ## Per-field projection helpers -/

theorem apply_public_ip_keeps_status (o : Option String) (r : Registry) :
    (apply_public_ip o r).device_status_gauge = r.device_status_gauge := by
  rw [apply_public_ip_eq]

theorem apply_public_ip_keeps_lease (o : Option String) (r : Registry) :
    (apply_public_ip o r).device_lease_gauge = r.device_lease_gauge := by
  rw [apply_public_ip_eq]

theorem apply_public_ip_keeps_info (o : Option String) (r : Registry) :
    (apply_public_ip o r).device_info_gauge = r.device_info_gauge := by
  rw [apply_public_ip_eq]

theorem apply_public_ip_keeps_connected (o : Option String) (r : Registry) :
    (apply_public_ip o r).connected_devices_gauge = r.connected_devices_gauge := by
  rw [apply_public_ip_eq]

theorem apply_public_ip_keeps_port (o : Option String) (r : Registry) :
    (apply_public_ip o r).port_mapping_gauge = r.port_mapping_gauge := by
  rw [apply_public_ip_eq]

theorem apply_public_ip_keeps_wifi_signal (o : Option String) (r : Registry) :
    (apply_public_ip o r).wifi_radio_signal_gauge = r.wifi_radio_signal_gauge := by
  rw [apply_public_ip_eq]

theorem apply_public_ip_keeps_wifi_channel (o : Option String) (r : Registry) :
    (apply_public_ip o r).wifi_radio_channel_gauge = r.wifi_radio_channel_gauge := by
  rw [apply_public_ip_eq]

theorem collect_wifi_stats_keeps_status (u : Upstream) (r : Registry) :
    (collect_wifi_stats u r).device_status_gauge = r.device_status_gauge := by
  rw [collect_wifi_stats_eq]

theorem collect_wifi_stats_keeps_lease (u : Upstream) (r : Registry) :
    (collect_wifi_stats u r).device_lease_gauge = r.device_lease_gauge := by
  rw [collect_wifi_stats_eq]

theorem collect_wifi_stats_keeps_info (u : Upstream) (r : Registry) :
    (collect_wifi_stats u r).device_info_gauge = r.device_info_gauge := by
  rw [collect_wifi_stats_eq]

theorem collect_wifi_stats_keeps_connected (u : Upstream) (r : Registry) :
    (collect_wifi_stats u r).connected_devices_gauge = r.connected_devices_gauge := by
  rw [collect_wifi_stats_eq]

theorem collect_wifi_stats_keeps_port (u : Upstream) (r : Registry) :
    (collect_wifi_stats u r).port_mapping_gauge = r.port_mapping_gauge := by
  rw [collect_wifi_stats_eq]

theorem collect_wifi_stats_keeps_public (u : Upstream) (r : Registry) :
    (collect_wifi_stats u r).public_ip_info = r.public_ip_info := by
  rw [collect_wifi_stats_eq]

theorem collect_port_mappings_keeps_status (u : Upstream) (r : Registry) :
    (collect_port_mappings u r).device_status_gauge = r.device_status_gauge := by
  rw [collect_port_mappings_eq]

theorem collect_port_mappings_keeps_lease (u : Upstream) (r : Registry) :
    (collect_port_mappings u r).device_lease_gauge = r.device_lease_gauge := by
  rw [collect_port_mappings_eq]

theorem collect_port_mappings_keeps_info (u : Upstream) (r : Registry) :
    (collect_port_mappings u r).device_info_gauge = r.device_info_gauge := by
  rw [collect_port_mappings_eq]

theorem collect_port_mappings_keeps_connected (u : Upstream) (r : Registry) :
    (collect_port_mappings u r).connected_devices_gauge = r.connected_devices_gauge := by
  rw [collect_port_mappings_eq]

theorem collect_port_mappings_keeps_wifi_signal (u : Upstream) (r : Registry) :
    (collect_port_mappings u r).wifi_radio_signal_gauge = r.wifi_radio_signal_gauge := by
  rw [collect_port_mappings_eq]

theorem collect_port_mappings_keeps_wifi_channel (u : Upstream) (r : Registry) :
    (collect_port_mappings u r).wifi_radio_channel_gauge = r.wifi_radio_channel_gauge := by
  rw [collect_port_mappings_eq]

theorem collect_port_mappings_keeps_public (u : Upstream) (r : Registry) :
    (collect_port_mappings u r).public_ip_info = r.public_ip_info := by
  rw [collect_port_mappings_eq]

theorem run_speedtest_keeps_google (o : SpeedOutcome) (r : Registry) :
    (run_speedtest o r).google_ping_gauge = r.google_ping_gauge := by
  rw [run_speedtest_eq]

theorem run_speedtest_keeps_status (o : SpeedOutcome) (r : Registry) :
    (run_speedtest o r).device_status_gauge = r.device_status_gauge := by
  rw [run_speedtest_eq]

theorem run_speedtest_keeps_port (o : SpeedOutcome) (r : Registry) :
    (run_speedtest o r).port_mapping_gauge = r.port_mapping_gauge := by
  rw [run_speedtest_eq]

theorem ping_google_keeps_status (o : PingOutcome) (r : Registry) :
    (ping_google o r).device_status_gauge = r.device_status_gauge := by
  rw [ping_google_eq]

theorem ping_google_keeps_port (o : PingOutcome) (r : Registry) :
    (ping_google o r).port_mapping_gauge = r.port_mapping_gauge := by
  rw [ping_google_eq]

theorem collect_port_mappings_fetch_err (u : Upstream) (r : Registry)
    (h : u.port_mappings = Res.err) : collect_port_mappings u r = r := by
  unfold collect_port_mappings
  rw [h]

theorem collect_wifi_stats_fetch_err (u : Upstream) (r : Registry)
    (h : u.wifi_radios = Res.err) : collect_wifi_stats u r = r := by
  unfold collect_wifi_stats
  rw [h]

theorem collect_wifi_stats_empty_result (u : Upstream) (r : Registry)
    (h : u.wifi_radios = Res.ok []) : collect_wifi_stats u r = r := by
  unfold collect_wifi_stats
  rw [h]
  rfl

theorem collect_port_mappings_fetch_ok (u : Upstream) (r : Registry)
    (pms : List PortMapping) (h : u.port_mappings = Res.ok pms) :
    collect_port_mappings u r =
      { r with port_mapping_gauge :=
          List.foldl (fun m pm => gaugeSet m (portLabels pm) 1) [] pms } := by
  unfold collect_port_mappings
  rw [h]

/-- Observable contents of every family after a fully successful device
poll. -/
theorem collect_ok_fields (u : Upstream) (r : Registry) (di : DeviceInfo)
    (devs : List Host) (h1 : u.login = Res.ok ()) (h2 : u.device_info = Res.ok di)
    (h3 : u.hosts = Res.ok devs) :
    (collect_sagemcom_metrics u r).2 = true ∧
    (collect_sagemcom_metrics u r).1.device_status_gauge = hostStatusFamily devs ∧
    (collect_sagemcom_metrics u r).1.device_lease_gauge = hostLeaseFamily devs ∧
    (collect_sagemcom_metrics u r).1.device_info_gauge = hostInfoFamily devs ∧
    (collect_sagemcom_metrics u r).1.connected_devices_gauge
      = some ((devs.filter fun d => d.active).length : ℚ) := by
  rw [collect_ok u r di devs h1 h2 h3]
  refine ⟨rfl, ?_, ?_, ?_, ?_⟩
  · exact (apply_public_ip_keeps_status _ _).trans
      ((collect_wifi_stats_keeps_status _ _).trans (collect_port_mappings_keeps_status _ _))
  · exact (apply_public_ip_keeps_lease _ _).trans
      ((collect_wifi_stats_keeps_lease _ _).trans (collect_port_mappings_keeps_lease _ _))
  · exact (apply_public_ip_keeps_info _ _).trans
      ((collect_wifi_stats_keeps_info _ _).trans (collect_port_mappings_keeps_info _ _))
  · exact (apply_public_ip_keeps_connected _ _).trans
      ((collect_wifi_stats_keeps_connected _ _).trans (collect_port_mappings_keeps_connected _ _))

/-! ## Claims -/

/-- C1 (counterexample): the claim "after a failed poll the visible
contents of EVERY family that collector produces are unchanged" is false
on the code: a poll that logs in and reads device info but then fails in
`get_hosts` has already overwritten the uptime family (and the
reboot-count and modem-info records), because those writes happen at
lines 234-242, before `get_hosts` at line 247.  Concretely: after a
successful poll reporting uptime 100, a poll reporting uptime 200 that
fails in `get_hosts` leaves the uptime family changed. -/
theorem c1_counterexample :
    (collect_sagemcom_metrics upHostsFail regAfterPoll1).2 = false ∧
    (collect_sagemcom_metrics upHostsFail regAfterPoll1).1.device_uptime_gauge
      ≠ regAfterPoll1.device_uptime_gauge := by
  decide

/-- C1 (amended): a failed device poll performs no partial update of the
LABELLED families — device-status, device-lease, device-info and
port-mapping are exactly as after the previous poll; likewise a failed
port-mapping fetch (caught inside `collect_port_mappings`) and a failed
Wi-Fi fetch (caught inside `collect_wifi_stats`) leave their families
untouched.  The scalar uptime/reboot and modem/public-IP info records
written before the failure point are NOT covered (see the
counterexample). -/
theorem c1_theorem (u : Upstream) (r : Registry) :
    ((collect_sagemcom_metrics u r).2 = false →
      (collect_sagemcom_metrics u r).1.device_status_gauge = r.device_status_gauge ∧
      (collect_sagemcom_metrics u r).1.device_lease_gauge = r.device_lease_gauge ∧
      (collect_sagemcom_metrics u r).1.device_info_gauge = r.device_info_gauge ∧
      (collect_sagemcom_metrics u r).1.port_mapping_gauge = r.port_mapping_gauge) ∧
    (u.port_mappings = Res.err →
      (collect_sagemcom_metrics u r).1.port_mapping_gauge = r.port_mapping_gauge) ∧
    (u.wifi_radios = Res.err →
      (collect_sagemcom_metrics u r).1.wifi_radio_signal_gauge = r.wifi_radio_signal_gauge ∧
      (collect_sagemcom_metrics u r).1.wifi_radio_channel_gauge = r.wifi_radio_channel_gauge) := by
  refine ⟨?_, ?_, ?_⟩
  · intro h
    obtain ⟨h1, h2, h3, h4, _⟩ := collect_fail_preserves u r h
    exact ⟨h1, h2, h3, h4⟩
  · intro hpm
    cases hl : u.login with
    | err => rw [collect_login_err u r hl]
    | ok v =>
      cases v
      cases hd : u.device_info with
      | err => rw [collect_device_info_err u r hl hd]
      | ok di =>
        cases hh : u.hosts with
        | err => rw [collect_hosts_err u r di hl hd hh]
        | ok devs =>
          rw [collect_ok u r di devs hl hd hh]
          exact (apply_public_ip_keeps_port _ _).trans
            ((collect_wifi_stats_keeps_port _ _).trans
              (by rw [collect_port_mappings_fetch_err u _ hpm]))
  · intro hw
    cases hl : u.login with
    | err => rw [collect_login_err u r hl]; exact ⟨rfl, rfl⟩
    | ok v =>
      cases v
      cases hd : u.device_info with
      | err => rw [collect_device_info_err u r hl hd]; exact ⟨rfl, rfl⟩
      | ok di =>
        cases hh : u.hosts with
        | err => rw [collect_hosts_err u r di hl hd hh]; exact ⟨rfl, rfl⟩
        | ok devs =>
          rw [collect_ok u r di devs hl hd hh]
          constructor
          · exact (apply_public_ip_keeps_wifi_signal _ _).trans
              (by rw [collect_wifi_stats_fetch_err u _ hw]
                  exact collect_port_mappings_keeps_wifi_signal u _)
          · exact (apply_public_ip_keeps_wifi_channel _ _).trans
              (by rw [collect_wifi_stats_fetch_err u _ hw]
                  exact collect_port_mappings_keeps_wifi_channel u _)

/-- C1 (witness): the amended theorem applied to the concrete failed
poll of the counterexample, whose port-mapping and Wi-Fi fetches also
raised. -/
theorem c1_witness :
    (collect_sagemcom_metrics upHostsFail regAfterPoll1).1.device_status_gauge
      = regAfterPoll1.device_status_gauge ∧
    (collect_sagemcom_metrics upHostsFail regAfterPoll1).1.port_mapping_gauge
      = regAfterPoll1.port_mapping_gauge ∧
    (collect_sagemcom_metrics upHostsFail regAfterPoll1).1.wifi_radio_signal_gauge
      = regAfterPoll1.wifi_radio_signal_gauge := by
  refine ⟨((c1_theorem upHostsFail regAfterPoll1).1 (by decide)).1,
          (c1_theorem upHostsFail regAfterPoll1).2.1 rfl,
          ((c1_theorem upHostsFail regAfterPoll1).2.2 rfl).1⟩

/-- C3 (counterexample): the claim "a successful poll whose observation
set is empty makes the corresponding family empty" fails for the Wi-Fi
families: `collect_wifi_stats` returns on an empty/unsupported result
BEFORE its `clear()` calls (line 180-182 precede lines 185-186), so a
successful empty Wi-Fi poll leaves the series of the previous poll in
place. -/
theorem c3_counterexample :
    (collect_sagemcom_metrics upWifiEmpty regWithWifi).2 = true ∧
    (collect_sagemcom_metrics upWifiEmpty regWithWifi).1.wifi_radio_signal_gauge ≠ [] := by
  decide

/-- C3 (amended): an empty successful poll empties the host families
(device-status, device-lease, device-info) and the port-mapping family;
an empty or unsupported Wi-Fi result is indeed successful (the poll
reports no error) but, contrary to the claim, leaves the Wi-Fi signal
and channel families exactly as the previous poll left them. -/
theorem c3_theorem (u : Upstream) (r : Registry) (di : DeviceInfo) (devs : List Host)
    (hl : u.login = Res.ok ()) (hd : u.device_info = Res.ok di)
    (hh : u.hosts = Res.ok devs) :
    (collect_sagemcom_metrics u r).2 = true ∧
    (devs = [] →
      (collect_sagemcom_metrics u r).1.device_status_gauge = [] ∧
      (collect_sagemcom_metrics u r).1.device_lease_gauge = [] ∧
      (collect_sagemcom_metrics u r).1.device_info_gauge = []) ∧
    (u.port_mappings = Res.ok [] →
      (collect_sagemcom_metrics u r).1.port_mapping_gauge = []) ∧
    (u.wifi_radios = Res.ok [] →
      (collect_sagemcom_metrics u r).1.wifi_radio_signal_gauge = r.wifi_radio_signal_gauge ∧
      (collect_sagemcom_metrics u r).1.wifi_radio_channel_gauge = r.wifi_radio_channel_gauge) := by
  obtain ⟨hsucc, hstat, hlease, hinfo, -⟩ := collect_ok_fields u r di devs hl hd hh
  refine ⟨hsucc, ?_, ?_, ?_⟩
  · intro hdevs
    subst hdevs
    exact ⟨hstat, hlease, hinfo⟩
  · intro hpm
    rw [collect_ok u r di devs hl hd hh]
    exact (apply_public_ip_keeps_port _ _).trans
      ((collect_wifi_stats_keeps_port _ _).trans
        (by rw [collect_port_mappings_fetch_ok u _ [] hpm]
            rfl))
  · intro hw
    rw [collect_ok u r di devs hl hd hh]
    constructor
    · exact (apply_public_ip_keeps_wifi_signal _ _).trans
        (by rw [collect_wifi_stats_empty_result u _ hw]
            exact collect_port_mappings_keeps_wifi_signal u _)
    · exact (apply_public_ip_keeps_wifi_channel _ _).trans
        (by rw [collect_wifi_stats_empty_result u _ hw]
            exact collect_port_mappings_keeps_wifi_channel u _)

/-- C3 (witness): the amended theorem at a concrete successful poll with
empty host, port-mapping and Wi-Fi observation sets, applied to the
registry that still holds one Wi-Fi series. -/
theorem c3_witness :
    (collect_sagemcom_metrics upWifiEmpty regWithWifi).2 = true ∧
    (collect_sagemcom_metrics upWifiEmpty regWithWifi).1.device_status_gauge = [] ∧
    (collect_sagemcom_metrics upWifiEmpty regWithWifi).1.port_mapping_gauge = [] ∧
    (collect_sagemcom_metrics upWifiEmpty regWithWifi).1.wifi_radio_signal_gauge
      = regWithWifi.wifi_radio_signal_gauge := by
  have h := c3_theorem upWifiEmpty regWithWifi diA [] rfl rfl rfl
  exact ⟨h.1, (h.2.1 rfl).1, h.2.2.1 rfl, (h.2.2.2 rfl).1⟩

/-- C4 (counterexample): "exactly one labeled series per host identifier
— no duplicate series for one identifier" fails when a poll's host table
carries the same identifier twice with different name labels: the series
key is the full (mac_address, name, hostname, interface) tuple (lines
258-262), so the family ends up with two series whose mac_address is
"A". -/
theorem c4_counterexample :
    (collect_sagemcom_metrics upDupHosts initRegistry).2 = true ∧
    (collect_sagemcom_metrics upDupHosts initRegistry).1.device_status_gauge.map
        (fun p => p.1.mac_address) = ["A", "A"] := by
  decide

/-- C4 (amended): for a successful poll whose host identifiers are
pairwise distinct, the device-status family contains exactly one series
per host identifier of that poll, in order, and nothing else — no
duplicates and no leftovers from any previous poll. -/
theorem c4_theorem (u : Upstream) (r : Registry) (di : DeviceInfo) (devs : List Host)
    (hl : u.login = Res.ok ()) (hd : u.device_info = Res.ok di)
    (hh : u.hosts = Res.ok devs) (hnd : (devs.map Host.id).Nodup) :
    (collect_sagemcom_metrics u r).1.device_status_gauge.map Prod.fst
      = devs.map statusLabels ∧
    (collect_sagemcom_metrics u r).1.device_status_gauge.map (fun p => p.1.mac_address)
      = devs.map Host.id := by
  obtain ⟨-, hstat, -⟩ := collect_ok_fields u r di devs hl hd hh
  have hndL : (devs.map statusLabels).Nodup := by
    apply List.Nodup.of_map StatusLabels.mac_address
    have hmm : (devs.map statusLabels).map StatusLabels.mac_address = devs.map Host.id := by
      rw [List.map_map]
      rfl
    rw [hmm]
    exact hnd
  have hfold : hostStatusFamily devs = devs.map (fun d => (statusLabels d, statusVal d)) := by
    unfold hostStatusFamily
    rw [foldl_gaugeSet_eq statusLabels statusVal devs [] hndL (by intro x hx; simp)]
    simp
  constructor
  · rw [hstat, hfold, List.map_map]
    rfl
  · rw [hstat, hfold, List.map_map]
    rfl

/-- C4 (witness): the amended theorem at a concrete one-host poll. -/
theorem c4_witness :
    (collect_sagemcom_metrics upOneHost initRegistry).1.device_status_gauge.map
        (fun p => p.1.mac_address) = ["A"] := by
  have h := c4_theorem upOneHost initRegistry diA [hostA] rfl rfl rfl (by decide)
  exact h.2.trans (by decide)

/-- Truthy public-IP results replace the info record (lines 299-301). -/
theorem apply_public_ip_some (ip : String) (r : Registry) (h : ip ≠ "") :
    (apply_public_ip (some ip) r).public_ip_info = some ip := by
  simp only [apply_public_ip]
  rw [if_neg h]

/-- C10: after every successful device poll, the exported
connected-devices scalar equals the number of hosts of that poll whose
active flag is true (line 248-249); every host of the poll — active or
not — still gets a device-status series (lines 256-263). -/
theorem c10_theorem (u : Upstream) (r : Registry) (di : DeviceInfo) (devs : List Host)
    (hl : u.login = Res.ok ()) (hd : u.device_info = Res.ok di)
    (hh : u.hosts = Res.ok devs) :
    (collect_sagemcom_metrics u r).1.connected_devices_gauge
      = some ((devs.filter fun d => d.active).length : ℚ) ∧
    ∀ d ∈ devs, statusLabels d
      ∈ (collect_sagemcom_metrics u r).1.device_status_gauge.map Prod.fst := by
  obtain ⟨-, hstat, -, -, hconn⟩ := collect_ok_fields u r di devs hl hd hh
  refine ⟨hconn, ?_⟩
  intro d hd2
  rw [hstat]
  exact mem_keys_foldl_gaugeSet_self statusLabels statusVal devs [] d hd2

/-- C10 (witness): a poll listing one active and one inactive host
exports the scalar 1 while both hosts are listed as series. -/
theorem c10_witness :
    (collect_sagemcom_metrics upDupHosts initRegistry).1.connected_devices_gauge
      = some 1 ∧
    statusLabels hostA
      ∈ (collect_sagemcom_metrics upDupHosts initRegistry).1.device_status_gauge.map
          Prod.fst := by
  have h := c10_theorem upDupHosts initRegistry diA [hostA, hostA2] rfl rfl rfl
  exact ⟨h.1.trans (by decide), h.2 hostA (by decide)⟩

/-- C7: a failed public-IP lookup issues no replace: the info record
keeps the value of the last successful lookup, across any number of
consecutive failures, and stays absent if no lookup ever succeeded;
a successful lookup of a (nonempty) address installs it. -/
theorem c7_theorem (u : Upstream) (r : Registry) (us : List Upstream) :
    (u.public_ip = none →
      (collect_sagemcom_metrics u r).1.public_ip_info = r.public_ip_info) ∧
    (∀ ip : String, u.public_ip = some ip → ip ≠ "" →
      (collect_sagemcom_metrics u r).2 = true →
      (collect_sagemcom_metrics u r).1.public_ip_info = some ip) ∧
    ((∀ v ∈ us, v.public_ip = none) →
      (pollsPublicIP us r).public_ip_info = r.public_ip_info) := by
  refine ⟨fun h => collect_public_ip_none u r h, ?_,
          fun h => pollsPublicIP_none us r h⟩
  intro ip hip hne hsucc
  cases hl : u.login with
  | err => rw [collect_login_err u r hl] at hsucc; cases hsucc
  | ok v =>
    cases v
    cases hd : u.device_info with
    | err => rw [collect_device_info_err u r hl hd] at hsucc; cases hsucc
    | ok di =>
      cases hh : u.hosts with
      | err => rw [collect_hosts_err u r di hl hd hh] at hsucc; cases hsucc
      | ok devs =>
        rw [collect_ok u r di devs hl hd hh, hip]
        exact apply_public_ip_some ip _ hne

/-- C7 (witness): a failed lookup leaves the record untouched, a
successful one installs "1.2.3.4", and two consecutive failures (the
spec scenario) leave the never-set record absent. -/
theorem c7_witness :
    (collect_sagemcom_metrics upHostsFail initRegistry).1.public_ip_info
      = initRegistry.public_ip_info ∧
    (collect_sagemcom_metrics upIpOk initRegistry).1.public_ip_info = some "1.2.3.4" ∧
    (pollsPublicIP [upHostsFail, upHostsFail] initRegistry).public_ip_info
      = initRegistry.public_ip_info := by
  refine ⟨(c7_theorem upHostsFail initRegistry []).1 rfl,
          (c7_theorem upIpOk initRegistry []).2.1 "1.2.3.4" rfl (by decide) (by decide),
          (c7_theorem upHostsFail initRegistry [upHostsFail, upHostsFail]).2.2 (by decide)⟩

/-- C8: a timed-out or erroring latency probe does not fail the poll —
it sets the NaN sentinel — and any subsequent successful probe with
round-trip time t (seconds) overwrites the gauge with the finite value
t * 1000 milliseconds (lines 129-140). -/
theorem c8_theorem (r r2 : Registry) (t : ℚ) :
    (ping_google PingOutcome.timeout r).google_ping_gauge = some GVal.nan ∧
    (ping_google PingOutcome.error r).google_ping_gauge = some GVal.nan ∧
    (ping_google (PingOutcome.success t) r).google_ping_gauge
      = some (GVal.q (t * 1000)) ∧
    (ping_google (PingOutcome.success t)
        (ping_google PingOutcome.timeout r2)).google_ping_gauge
      = some (GVal.q (t * 1000)) :=
  ⟨rfl, rfl, rfl, rfl⟩

/-- C2 (counterexample): the loop (lines 315-331) is fully sequential,
so a fast collector due during an in-flight benchmark is NOT dispatched:
starting at wall-clock 4000 with a 600-second benchmark, the device poll
of iteration 0 starts at 4000 and its cadence makes the next fast poll
due at 4300, inside the benchmark window [4002, 4602); yet the next fast
dispatch only happens at 4902, after the benchmark completed at 4602
plus the 300-second sleep. -/
theorem c2_counterexample :
    (c2run.2.2.getD 0 trDefault).speedtestRan = true ∧
    (c2run.2.2.getD 0 trDefault).sagemcomStart + COLLECTION_INTERVAL = 4300 ∧
    (c2run.2.2.getD 0 trDefault).speedtestCheckTime = 4002 ∧
    (c2run.2.2.getD 0 trDefault).speedtestEnd = 4602 ∧
    (c2run.2.2.getD 1 trDefault).sagemcomStart = 4902 ∧
    4300 < 4602 ∧ 4602 < 4902 := by
  decide

/-- C2 (amended): the loop is sequential.  Within one iteration the fast
collectors do run before the benchmark check; but whenever the benchmark
runs, the start of the next iteration — and hence the next dispatch of
every fast collector — is pushed back by exactly the benchmark's
duration, so an in-flight benchmark delays the fast collectors' cadence
instead of being decoupled from it. -/
theorem c2_theorem (st : LoopState) (r : Registry) (it : IterInput) :
    (update_metrics_step st r it).2.2.speedtestCheckTime
      = st.now + it.sagemcomDur + it.pingDur ∧
    ((update_metrics_step st r it).2.2.speedtestRan = true →
      (update_metrics_step st r it).1.now
        = st.now + it.sagemcomDur + it.pingDur + it.speedDur + COLLECTION_INTERVAL) ∧
    ((update_metrics_step st r it).2.2.speedtestRan = false →
      (update_metrics_step st r it).1.now
        = st.now + it.sagemcomDur + it.pingDur + COLLECTION_INTERVAL) := by
  refine ⟨rfl, ?_, ?_⟩ <;>
    intro h <;>
    simp only [update_metrics_step] at h ⊢ <;>
    simp [h]

/-- C2 (witness): the amended theorem at a benchmark-running iteration
and at a quiet one. -/
theorem c2_witness :
    (update_metrics_step ⟨4000, 0⟩ initRegistry itSpeed).1.now
      = 4000 + 1 + 1 + 600 + COLLECTION_INTERVAL ∧
    (update_metrics_step ⟨4000, 4000⟩ initRegistry itFast).1.now
      = 4000 + 1 + 1 + COLLECTION_INTERVAL :=
  ⟨(c2_theorem ⟨4000, 0⟩ initRegistry itSpeed).2.1 (by decide),
   (c2_theorem ⟨4000, 4000⟩ initRegistry itFast).2.2 (by decide)⟩

/-- C5: every collector error is caught.  Even when the device poll
fails, the latency probe still runs (the gauge is updated exactly as it
would be on the previous registry), the stale families stay visible, the
next iteration is scheduled, and the loop produces one trace per planned
iteration — it never terminates early. -/
theorem c5_theorem (st : LoopState) (r : Registry) (it : IterInput)
    (rest : List IterInput)
    (hfail : (collect_sagemcom_metrics it.upstream r).2 = false) :
    (update_metrics_step st r it).2.2.sagemcomRan = true ∧
    (update_metrics_step st r it).2.2.pingRan = true ∧
    (update_metrics_step st r it).2.1.google_ping_gauge
      = (ping_google it.pingOut r).google_ping_gauge ∧
    (update_metrics_step st r it).2.1.device_status_gauge = r.device_status_gauge ∧
    (update_metrics_step st r it).2.1.port_mapping_gauge = r.port_mapping_gauge ∧
    (update_metrics_step st r it).1.now
      = (update_metrics_step st r it).2.2.speedtestEnd + COLLECTION_INTERVAL ∧
    (update_metrics_run st r (it :: rest)).2.2.length = rest.length + 1 := by
  obtain ⟨hs, -, -, hp, -⟩ := collect_fail_preserves it.upstream r hfail
  refine ⟨rfl, rfl, ?_, ?_, ?_, rfl, ?_⟩
  · simp only [update_metrics_step]
    split
    · exact (run_speedtest_keeps_google _ _).trans (ping_google_gauge_congr it.pingOut _ r)
    · exact ping_google_gauge_congr it.pingOut _ r
  · simp only [update_metrics_step]
    split
    · exact (run_speedtest_keeps_status _ _).trans ((ping_google_keeps_status _ _).trans hs)
    · exact (ping_google_keeps_status _ _).trans hs
  · simp only [update_metrics_step]
    split
    · exact (run_speedtest_keeps_port _ _).trans ((ping_google_keeps_port _ _).trans hp)
    · exact (ping_google_keeps_port _ _).trans hp
  · exact (update_metrics_run_length (it :: rest) st r).trans (by simp)

/-- C5 (witness): an iteration in which every device call raises. -/
theorem c5_witness :
    (update_metrics_step ⟨4000, 0⟩ initRegistry itSpeed).2.2.sagemcomRan = true ∧
    (update_metrics_step ⟨4000, 0⟩ initRegistry itSpeed).2.2.pingRan = true ∧
    (update_metrics_step ⟨4000, 0⟩ initRegistry itSpeed).2.1.google_ping_gauge
      = (ping_google itSpeed.pingOut initRegistry).google_ping_gauge ∧
    (update_metrics_step ⟨4000, 0⟩ initRegistry itSpeed).2.1.device_status_gauge
      = initRegistry.device_status_gauge ∧
    (update_metrics_step ⟨4000, 0⟩ initRegistry itSpeed).2.1.port_mapping_gauge
      = initRegistry.port_mapping_gauge ∧
    (update_metrics_step ⟨4000, 0⟩ initRegistry itSpeed).1.now
      = (update_metrics_step ⟨4000, 0⟩ initRegistry itSpeed).2.2.speedtestEnd
        + COLLECTION_INTERVAL ∧
    (update_metrics_run ⟨4000, 0⟩ initRegistry [itSpeed]).2.2.length = 0 + 1 :=
  c5_theorem ⟨4000, 0⟩ initRegistry itSpeed [] (by decide)

/-- C6 (counterexample): "the next due time is completion_time + period"
is false for the benchmark: `last_speedtest_time` records the time read
BEFORE the run (line 325/328), so the next run becomes due period
seconds after the previous run STARTED.  Concretely, a benchmark started
at 4002 and completed at 4602 runs again at 7622, which is before
completion + period = 8202. -/
theorem c6_counterexample :
    (c6run.2.2.getD 0 trDefault).speedtestRan = true ∧
    (c6run.2.2.getD 0 trDefault).speedtestCheckTime = 4002 ∧
    (c6run.2.2.getD 0 trDefault).speedtestEnd = 4602 ∧
    (c6run.2.2.getD 10 trDefault).speedtestRan = true ∧
    (c6run.2.2.getD 10 trDefault).speedtestCheckTime = 7622 ∧
    7622 < 4602 + speedtest_interval_seconds := by
  decide

/-- C6 (amended): the first poll of an iteration starts immediately at
the loop's current time (so the very first polls happen at process
start, with no initial sleep); the next iteration is due at the
completion of ALL of the iteration's work plus the period, whether the
polls succeeded or failed, so overruns space out instead of bursting;
but the benchmark's own next due time is measured from its START time
(`speedtestCheckTime`), not from its completion. -/
theorem c6_theorem (st : LoopState) (r : Registry) (it : IterInput) :
    (update_metrics_step st r it).2.2.sagemcomStart = st.now ∧
    (update_metrics_step st r it).1.now
      = (update_metrics_step st r it).2.2.speedtestEnd + COLLECTION_INTERVAL ∧
    ((update_metrics_step st r it).2.2.speedtestRan = true →
      (update_metrics_step st r it).1.last_speedtest_time
        = (update_metrics_step st r it).2.2.speedtestCheckTime) ∧
    ((update_metrics_step st r it).2.2.speedtestRan = false →
      (update_metrics_step st r it).1.last_speedtest_time
        = st.last_speedtest_time) := by
  refine ⟨rfl, rfl, ?_, ?_⟩ <;>
    intro h <;>
    simp only [update_metrics_step] at h ⊢ <;>
    simp [h]

/-- C6 (witness): the amended theorem at a benchmark-running iteration
and at a quiet one. -/
theorem c6_witness :
    (update_metrics_step ⟨4000, 0⟩ initRegistry itSpeed).1.last_speedtest_time
      = (update_metrics_step ⟨4000, 0⟩ initRegistry itSpeed).2.2.speedtestCheckTime ∧
    (update_metrics_step ⟨4000, 4000⟩ initRegistry itFast).1.last_speedtest_time
      = 4000 :=
  ⟨(c6_theorem ⟨4000, 0⟩ initRegistry itSpeed).2.2.1 (by decide),
   (c6_theorem ⟨4000, 4000⟩ initRegistry itFast).2.2.2 (by decide)⟩

/-- C9: in every iteration the benchmark runs if and only if at least
`speedtest_interval_seconds` have elapsed since the last benchmark run
(measured at `current_time`, line 325-326); at process start
(`last_speedtest_time = 0`, and a realistic epoch clock of at least one
period) the first iteration always qualifies; two successive runs are at
least one period apart; and the fast collectors run in every iteration
regardless. -/
theorem c9_theorem (st : LoopState) (r : Registry) (it : IterInput)
    (hmono : st.last_speedtest_time ≤ st.now) :
    ((update_metrics_step st r it).2.2.speedtestRan = true ↔
      st.last_speedtest_time + speedtest_interval_seconds
        ≤ st.now + it.sagemcomDur + it.pingDur) ∧
    (st.last_speedtest_time = 0 → speedtest_interval_seconds ≤ st.now →
      (update_metrics_step st r it).2.2.speedtestRan = true) ∧
    ((update_metrics_step st r it).2.2.speedtestRan = true →
      st.last_speedtest_time + speedtest_interval_seconds
        ≤ (update_metrics_step st r it).1.last_speedtest_time) ∧
    (update_metrics_step st r it).2.2.sagemcomRan = true ∧
    (update_metrics_step st r it).2.2.pingRan = true := by
  have hiff : (update_metrics_step st r it).2.2.speedtestRan = true ↔
      st.last_speedtest_time + speedtest_interval_seconds
        ≤ st.now + it.sagemcomDur + it.pingDur := by
    simp only [update_metrics_step, decide_eq_true_eq]
    omega
  refine ⟨hiff, ?_, ?_, rfl, rfl⟩
  · intro h0 hge
    apply hiff.mpr
    omega
  · intro h
    have hle := hiff.mp h
    have hlast : (update_metrics_step st r it).1.last_speedtest_time
        = st.now + it.sagemcomDur + it.pingDur := by
      simp only [update_metrics_step] at h ⊢
      simp [h]
    rw [hlast]
    exact hle

/-- C9 (witness): the first iteration of a process started at epoch
second 4000 runs the benchmark, and the recorded run time is at least
one full period after the (zero) initial mark. -/
theorem c9_witness :
    (update_metrics_step ⟨4000, 0⟩ initRegistry itSpeed).2.2.speedtestRan = true ∧
    0 + speedtest_interval_seconds
      ≤ (update_metrics_step ⟨4000, 0⟩ initRegistry itSpeed).1.last_speedtest_time := by
  have h := c9_theorem ⟨4000, 0⟩ initRegistry itSpeed (by decide)
  have h1 := h.2.1 rfl (by decide)
  exact ⟨h1, h.2.2.1 h1⟩
